import Mathlib

/-!
Verification of the WULPUS nRF52 probe firmware capture-and-stream pipeline
(`src/fw/nrf52/probe_fw`) against its natural-language specification.

The firmware's shared mutable state (the ring indices `rx_buffer_head` /
`rx_buffer_tail`, the SPI RX destination pointer, the two sequencer timers,
the SPI TX staging buffer) is embedded as an explicit state record `FwState`.
Byte buffers are total functions `Nat → Nat` (byte offset to byte value);
handlers become state transformers.  The BLE transport primitive
`ble_nus_data_send` is modelled by an oracle: a list of statuses consumed one
per call.
-/

set_option maxRecDepth 10000

namespace Wulpus

/-! ## Constants, from `wulpus_config.h` -/

/-- Number of chained SPI transfers per capture (`WULPUS_NUMBER_OF_XFERS`). -/
def WULPUS_NUMBER_OF_XFERS : Nat := 4

/-- Bytes moved per SPI transfer (`WULPUS_BYTES_PER_XFER`). -/
def WULPUS_BYTES_PER_XFER : Nat := 201

/-- Ring capacity in frames (`WULPUS_NUM_BUFFERED_FRAMES`). -/
def WULPUS_NUM_BUFFERED_FRAMES : Nat := 35

/-- Macro `FRAME_SIZE` from `main.c`: bytes occupied by one frame slot. -/
def FRAME_SIZE : Nat := WULPUS_NUMBER_OF_XFERS * WULPUS_BYTES_PER_XFER

/-- Value of `_wp_spi_tx_length` for the whole run: `main` calls
`wp_spi_init(tx_buffer, WULPUS_BYTES_PER_XFER, rx_buffer, WULPUS_BYTES_PER_XFER)`
(main.c line 156) and the field is never written again. -/
def wp_spi_tx_length : Nat := WULPUS_BYTES_PER_XFER

/-! ## Firmware state -/

/-- The firmware's mutable state relevant to the capture-and-stream pipeline:
the globals of `main.c` (`rx_buffer_head`, `rx_buffer_tail`, `rx_buffer`),
the SPI module state (`_wp_spi_tx_buffer` contents, the SPIM `RXD.PTR`
destination expressed as a byte offset into `rx_buffer`, and whether the
repeated reception transfer is armed), the PPI sequencer timers
(TIMER3/TIMER4: enabled flag and current counts), the number of
`RX Buffer overflow!` warnings logged so far, and the log of packets the
probe has pushed over SPI to the MSP430 companion (`spi_sent`). -/
structure FwState where
  rx_buffer_head : Nat
  rx_buffer_tail : Nat
  rx_buffer : Nat → Nat
  spi_tx_buffer : Nat → Nat
  spi_rxd_ptr : Nat
  spi_rx_armed : Bool
  tim_enabled : Bool
  tim_timeout_val : Nat
  tim_counter_val : Nat
  overflow_warnings : Nat
  spi_sent : List (List Nat)

/-- All-zero initial state: static C globals are zero-initialized and both
timers start disabled. -/
def initState : FwState :=
  { rx_buffer_head := 0
    rx_buffer_tail := 0
    rx_buffer := fun _ => 0
    spi_tx_buffer := fun _ => 0
    spi_rxd_ptr := 0
    spi_rx_armed := false
    tim_enabled := false
    tim_timeout_val := 0
    tim_counter_val := 0
    overflow_warnings := 0
    spi_sent := [] }

/-- Read `len` consecutive bytes of a buffer starting at byte offset `ptr`. -/
def bytesAt (buf : Nat → Nat) (ptr len : Nat) : List Nat :=
  (List.range len).map (fun i => buf (ptr + i))

/-! ## SPI module, `wulpus_spi.c` -/

/-- Source function `wp_spi_set_buffer` (wulpus_spi.c lines 66-69): writes the SPIM
`RXD.PTR` register; modelled as storing the destination byte offset. -/
def wp_spi_set_buffer (buffer : Nat) (s : FwState) : FwState :=
  { s with spi_rxd_ptr := buffer }

/-- Source function `wp_spi_init_reception` (wulpus_spi.c lines 82-89): arms the repeated
held SPI TRX transfer with RX pointer post-increment. -/
def wp_spi_init_reception (s : FwState) : FwState :=
  { s with spi_rx_armed := true }

/-- Source function `wp_spi_stop_reception` (wulpus_spi.c lines 91-94): aborts the SPI
transfer. -/
def wp_spi_stop_reception (s : FwState) : FwState :=
  { s with spi_rx_armed := false }

/-- Source function `wp_spi_send_config` (wulpus_spi.c lines 71-80):
`memset(_wp_spi_tx_buffer, 0, _wp_spi_tx_length)`, then
`memcpy(_wp_spi_tx_buffer, buffer, length)`, then a TX-only transfer of
`_wp_spi_tx_length` bytes from `_wp_spi_tx_buffer`.  The C parameter
`length` has type `uint8_t`, so the incoming value is reduced mod 256.
Reading past the end of the caller's `buffer` is modelled by `List.getD`
with default 0. -/
def wp_spi_send_config (buffer : List Nat) (length : Nat) (s : FwState) : FwState :=
  let len := length % 256
  let tx_after_memset : Nat → Nat := fun i =>
    if i < wp_spi_tx_length then 0 else s.spi_tx_buffer i
  let tx_after_memcpy : Nat → Nat := fun i =>
    if i < len then buffer.getD i 0 else tx_after_memset i
  { s with
    spi_tx_buffer := tx_after_memcpy
    spi_sent := s.spi_sent ++ [bytesAt tx_after_memcpy 0 wp_spi_tx_length] }

/-- The bytes `wp_spi_send_config buffer length` actually puts on the wire:
exactly `wp_spi_tx_length` = 201 bytes, the first `length % 256` taken from
`buffer` (zero-default past its end) and the rest zero. -/
def wp_spi_wire_bytes (buffer : List Nat) (length : Nat) : List Nat :=
  (List.range wp_spi_tx_length).map (fun i =>
    if i < length % 256 then buffer.getD i 0 else 0)

/-! ## PPI sequencer module, `wulpus_ppi.c` -/

/-- Source function `wp_ppi_start_transfer` (wulpus_ppi.c lines 118-129): clears both
timers, then enables both timers. -/
def wp_ppi_start_transfer (s : FwState) : FwState :=
  { s with tim_timeout_val := 0, tim_counter_val := 0, tim_enabled := true }

/-- Source function `wp_ppi_stop_transfer` (wulpus_ppi.c lines 131-139): disables both
timers without resetting them. -/
def wp_ppi_stop_transfer (s : FwState) : FwState :=
  { s with tim_enabled := false }

/-! ## Application handlers, `main.c` -/

/-- Values of `nrf_gpiote_polarity_t` the GPIO handler switches on. -/
inductive GpioteAction where
  | lotohi
  | hitolo
  | toggle
deriving DecidableEq

/-- Source function `gpio_data_ready_handler` (main.c lines 43-71): on a TOGGLE action with
pin polarity 1, set the SPI RX destination to `rx_buffer + rx_buffer_head *
FRAME_SIZE`, arm reception, and start the PPI-chained transfer sequence;
every other action/polarity combination does nothing. -/
def gpio_data_ready_handler (action : GpioteAction) (polarity : Nat) (s : FwState) : FwState :=
  match action with
  | .toggle =>
    if polarity = 1 then
      wp_ppi_start_transfer
        (wp_spi_init_reception
          (wp_spi_set_buffer (s.rx_buffer_head * FRAME_SIZE) s))
    else s
  | _ => s

/-- Source function `ppi_end_handler` (main.c lines 73-83), parametrized by the ring
capacity macro `WULPUS_NUM_BUFFERED_FRAMES` (called `C` here so the spec's
capacity-3 scenario can be stated): advance
`rx_buffer_head = (rx_buffer_head + 1) % C` unconditionally, and log an
overflow warning exactly when the new head equals `rx_buffer_tail`. -/
def ppi_end_handler (C : Nat) (s : FwState) : FwState :=
  let h := (s.rx_buffer_head + 1) % C
  { s with
    rx_buffer_head := h
    overflow_warnings :=
      if h = s.rx_buffer_tail then s.overflow_warnings + 1 else s.overflow_warnings }

/-- Source function `counter_cc0_event_handler`, i.e. `_wp_ppi_tim_counter_handler` (wulpus_ppi.c lines 39-51): on the
counter compare event (all transfers of a sequence done) stop the timers,
stop SPI reception, then run the registered end handlers; `main` registers
exactly `ppi_end_handler`. -/
def counter_cc0_event_handler (C : Nat) (s : FwState) : FwState :=
  ppi_end_handler C (wp_spi_stop_reception (wp_ppi_stop_transfer s))

/-- Source function `ble_conn_handler` (main.c lines 86-100), parametrized by the restart
packet bytes: the `WULPUS_RESTART_PACKET` / `WULPUS_BYTES_PER_PACKET`
macros it expands are not part of `src/` (the spec says only that a
fixed-byte restart control packet exists), so the packet is passed in as
`restart_packet`, the contents of the C array
`const uint8_t restart_packet[WULPUS_BYTES_PER_PACKET]`.  On `connected =
false`: stop the PPI transfer, stop SPI reception, and send the restart
packet to the MSP430 via `wp_spi_send_config`.  On `connected = true`:
nothing. -/
def ble_conn_handler (restart_packet : List Nat) (connected : Bool) (s : FwState) : FwState :=
  if connected then s
  else
    wp_spi_send_config restart_packet restart_packet.length
      (wp_spi_stop_reception (wp_ppi_stop_transfer s))

/-- Source function `ble_data_handler` (main.c lines 102-119): on an inbound NUS command,
stop the PPI transfer, stop SPI reception, forward the payload to the
MSP430 via `wp_spi_send_config`, then zero both ring indices. -/
def ble_data_handler (data : List Nat) (length : Nat) (s : FwState) : FwState :=
  let s1 := wp_spi_stop_reception (wp_ppi_stop_transfer s)
  let s2 := wp_spi_send_config data length s1
  { s2 with rx_buffer_head := 0, rx_buffer_tail := 0 }

/-! ## BLE transport, `wulpus_ble.c` -/

/-- Status codes `ble_nus_data_send` can return, as `wp_ble_transmit`
distinguishes them: `NRF_SUCCESS`, `NRF_ERROR_INVALID_STATE`,
`NRF_ERROR_RESOURCES` (the transient out-of-send-resources status),
`NRF_ERROR_NOT_FOUND`, and any other code. -/
inductive BleStatus where
  | success
  | invalidState
  | resources
  | notFound
  | other (code : Nat)
deriving DecidableEq

/-- How a `wp_ble_transmit` call ends: the function returns a status to its
caller, or the `APP_ERROR_CHECK` inside its loop fires (the SDK fault
handler runs and the call never returns), or the modelled oracle ran out of
responses while the loop was still retrying. -/
inductive TransmitOutcome where
  | returned (status : BleStatus)
  | errorCheckFailed (status : BleStatus)
  | outOfResponses
deriving DecidableEq

/-- Source function `wp_ble_transmit` (wulpus_ble.c lines 337-351) over a response oracle:
the do-while loop calls `ble_nus_data_send(&m_nus, data, &length,
m_conn_handle)` — the same `data` and `length` every time — consuming one
oracle entry per call; if the status is none of `INVALID_STATE`,
`RESOURCES`, `NOT_FOUND` it goes through `APP_ERROR_CHECK` (a no-op on
`NRF_SUCCESS`, fatal otherwise); the loop repeats exactly while the status
is `RESOURCES`.  Returns the outcome, the unconsumed oracle suffix, and the
trace of payloads passed to `ble_nus_data_send`, in call order. -/
def wp_ble_transmit (data : List Nat) :
    List BleStatus → TransmitOutcome × List BleStatus × List (List Nat)
  | [] => (.outOfResponses, [], [])
  | st :: rest =>
    if st = .resources then
      let r := wp_ble_transmit data rest
      (r.1, r.2.1, data :: r.2.2)
    else if st = .success ∨ st = .invalidState ∨ st = .notFound then
      (.returned st, rest, [data])
    else
      (.errorCheckFailed st, rest, [data])

/-- The outcome `wp_ble_transmit` produces on the first non-`resources`
status it sees. -/
def transmit_result (st : BleStatus) : TransmitOutcome :=
  if st = .success ∨ st = .invalidState ∨ st = .notFound then
    .returned st
  else
    .errorCheckFailed st

/-! ## Drain loop, `main.c` -/

/-- The four BLE payloads `handle_pending_frames` builds for the frame in
slot `t` (main.c lines 128-131):
segment 0 is `WULPUS_BYTES_PER_XFER + 1` bytes starting at slot offset
`0 * WULPUS_BYTES_PER_XFER + 1`, and segments 1..3 are
`WULPUS_BYTES_PER_XFER` bytes starting at slot offsets
`1 * WULPUS_BYTES_PER_XFER`, `2 * WULPUS_BYTES_PER_XFER`,
`3 * WULPUS_BYTES_PER_XFER`. -/
def frame_segments (buf : Nat → Nat) (t : Nat) : List (List Nat) :=
  [ bytesAt buf (t * FRAME_SIZE + 0 * WULPUS_BYTES_PER_XFER + 1) (WULPUS_BYTES_PER_XFER + 1)
  , bytesAt buf (t * FRAME_SIZE + 1 * WULPUS_BYTES_PER_XFER) WULPUS_BYTES_PER_XFER
  , bytesAt buf (t * FRAME_SIZE + 2 * WULPUS_BYTES_PER_XFER) WULPUS_BYTES_PER_XFER
  , bytesAt buf (t * FRAME_SIZE + 3 * WULPUS_BYTES_PER_XFER) WULPUS_BYTES_PER_XFER ]

/-- Result of draining one frame: all segment transmits returned
`NRF_SUCCESS`; or an `APP_ERROR_CHECK` aborted the drain with the given
status (either inside `wp_ble_transmit`, or in `handle_pending_frames` when
`wp_ble_transmit` returned a non-success status); or the oracle ran dry. -/
inductive SendOutcome where
  | allSent
  | aborted (status : BleStatus)
  | noResponse
deriving DecidableEq

/-- How a `wp_ble_transmit` outcome other than a returned `NRF_SUCCESS`
stops the drain: a status merely returned by `wp_ble_transmit` fails the
`APP_ERROR_CHECK` wrapped around the call site in `handle_pending_frames`,
and a check that already failed inside `wp_ble_transmit` has aborted
already; either way the abort carries that status. -/
def abort_outcome : TransmitOutcome → SendOutcome
  | .returned st => .aborted st
  | .errorCheckFailed st => .aborted st
  | .outOfResponses => .noResponse

/-- Sequential transmission of a list of segments, threading the response
oracle: each segment goes through `wp_ble_transmit`; a returned
`NRF_SUCCESS` passes the caller's `APP_ERROR_CHECK` and moves on to the
next segment; anything else aborts the whole drain (`abort_outcome`).
Also returns the unconsumed oracle and the concatenated call trace. -/
def send_segments :
    List (List Nat) → List BleStatus → SendOutcome × List BleStatus × List (List Nat)
  | [], resps => (.allSent, resps, [])
  | seg :: more, resps =>
    let r := wp_ble_transmit seg resps
    if r.1 = TransmitOutcome.returned BleStatus.success then
      let q := send_segments more r.2.1
      (q.1, q.2.1, r.2.2 ++ q.2.2)
    else
      (abort_outcome r.1, r.2.1, r.2.2)

/-- Source function `handle_pending_frames` (main.c lines 122-137): if
`rx_buffer_tail != rx_buffer_head`, transmit the four segments of the frame
at slot `rx_buffer_tail` (each wrapped in `APP_ERROR_CHECK`), and — when
all four completed normally — advance
`rx_buffer_tail = (rx_buffer_tail + 1) % WULPUS_NUM_BUFFERED_FRAMES`; if an
`APP_ERROR_CHECK` fires the remaining statements (including the tail
advance) never run and the state is left as it was.  If the ring is empty
the call does nothing (outcome `allSent` with an empty trace). -/
def handle_pending_frames (resps : List BleStatus) (s : FwState) :
    FwState × SendOutcome × List (List Nat) :=
  if s.rx_buffer_tail ≠ s.rx_buffer_head then
    let r := send_segments (frame_segments s.rx_buffer s.rx_buffer_tail) resps
    if r.1 = SendOutcome.allSent then
      ({ s with rx_buffer_tail := (s.rx_buffer_tail + 1) % WULPUS_NUM_BUFFERED_FRAMES },
        r.1, r.2.2)
    else
      (s, r.1, r.2.2)
  else
    (s, .allSent, [])

/-! ## Autonomous hardware capture and event-level semantics -/

/-- Modelled from the spec: the autonomous PPI/SPIM hardware transfer chain
itself is vendor hardware, not code under `src/`; per spec section 4.2 and
the configuration in `wulpus_spi.c` / `wulpus_ppi.c` (repeated TRX transfer
with RX post-increment, counter compare at `WULPUS_NUMBER_OF_XFERS`), one
full sequence writes `FRAME_SIZE` incoming bytes into `rx_buffer` starting
at the programmed `RXD.PTR` destination and leaves the transfer counter at
`WULPUS_NUMBER_OF_XFERS`. -/
def hw_capture (incoming : Nat → Nat) (s : FwState) : FwState :=
  { s with
    rx_buffer := fun i =>
      if s.spi_rxd_ptr ≤ i ∧ i < s.spi_rxd_ptr + FRAME_SIZE then
        incoming (i - s.spi_rxd_ptr)
      else
        s.rx_buffer i
    tim_counter_val := WULPUS_NUMBER_OF_XFERS }

/-- One full capture cycle at ring capacity `C`: the data-ready edge
(TOGGLE, polarity 1) arms and starts the sequence, the hardware moves one
frame of `incoming` bytes into the armed destination, and the counter
compare event fires `counter_cc0_event_handler`. -/
def capture_cycle (C : Nat) (incoming : Nat → Nat) (s : FwState) : FwState :=
  counter_cc0_event_handler C (hw_capture incoming (gpio_data_ready_handler .toggle 1 s))

/-- Run one capture cycle per element of `frames`, in order. -/
def capture_run (C : Nat) : List (Nat → Nat) → FwState → FwState
  | [], s => s
  | f :: fs, s => capture_run C fs (capture_cycle C f s)

/-- The observable events that drive the firmware: a data-ready GPIO edge,
the sequence-completion (counter compare) event, one main-loop drain
iteration (with its transport response oracle), an inbound NUS command, and
a BLE connection status change. -/
inductive Event where
  | dataReady (action : GpioteAction) (polarity : Nat)
  | seqComplete
  | drain (resps : List BleStatus)
  | bleData (data : List Nat) (length : Nat)
  | bleConn (connected : Bool)

/-- Event-level step function of the firmware, at the configured ring
capacity `WULPUS_NUM_BUFFERED_FRAMES`; `restart_packet` stands for the
`WULPUS_RESTART_PACKET` contents (not part of `src/`). -/
def step (restart_packet : List Nat) : Event → FwState → FwState
  | .dataReady action polarity, s => gpio_data_ready_handler action polarity s
  | .seqComplete, s => counter_cc0_event_handler WULPUS_NUM_BUFFERED_FRAMES s
  | .drain resps, s => (handle_pending_frames resps s).1
  | .bleData data length, s => ble_data_handler data length s
  | .bleConn connected, s => ble_conn_handler restart_packet connected s

/-! ## Helper lemmas -/

lemma bytesAt_length (buf : Nat → Nat) (ptr len : Nat) :
    (bytesAt buf ptr len).length = len := by
  simp [bytesAt]

lemma bytesAt_getD (buf : Nat → Nat) (ptr len i : Nat) (h : i < len) :
    (bytesAt buf ptr len).getD i 0 = buf (ptr + i) := by
  simp [bytesAt, List.getD_eq_getElem?_getD, List.getElem?_map, List.getElem?_range h]

/-- Lemma: `wp_spi_send_config` appends exactly one packet to the SPI send log,
the `wp_spi_wire_bytes` serialization of its arguments. -/
lemma wp_spi_send_config_sent (buffer : List Nat) (length : Nat) (s : FwState) :
    (wp_spi_send_config buffer length s).spi_sent
      = s.spi_sent ++ [wp_spi_wire_bytes buffer length] := by
  unfold wp_spi_send_config wp_spi_wire_bytes bytesAt
  congr 1

/-- Lemma: `wp_spi_send_config` changes nothing outside the SPI TX staging buffer
and the send log; in particular both ring indices survive. -/
lemma wp_spi_send_config_frame (buffer : List Nat) (length : Nat) (s : FwState) :
    (wp_spi_send_config buffer length s).rx_buffer_head = s.rx_buffer_head ∧
    (wp_spi_send_config buffer length s).rx_buffer_tail = s.rx_buffer_tail ∧
    (wp_spi_send_config buffer length s).tim_enabled = s.tim_enabled ∧
    (wp_spi_send_config buffer length s).spi_rx_armed = s.spi_rx_armed := by
  refine ⟨rfl, rfl, rfl, rfl⟩

/-- The retry loop of `wp_ble_transmit` on an oracle that answers
`NRF_ERROR_RESOURCES` exactly `k` times and then some status
`st ≠ NRF_ERROR_RESOURCES`: the loop makes exactly `k + 1` calls, every
call carries the same payload, the oracle entries after `st` are never
consulted, and the outcome is `transmit_result st`. -/
lemma transmit_spec (data : List Nat) (k : Nat) (st : BleStatus) (rest : List BleStatus)
    (h : st ≠ BleStatus.resources) :
    wp_ble_transmit data (List.replicate k BleStatus.resources ++ st :: rest)
      = (transmit_result st, rest, List.replicate (k + 1) data) := by
  induction k with
  | zero =>
    simp only [List.replicate, List.nil_append, wp_ble_transmit, transmit_result]
    rw [if_neg h]
    by_cases hm : st = BleStatus.success ∨ st = BleStatus.invalidState ∨ st = BleStatus.notFound
    · simp [hm]
    · simp [hm]
  | succ n ih =>
    rw [List.replicate_succ, List.cons_append, wp_ble_transmit]
    simp [ih, List.replicate_succ]

/-- Whenever `wp_ble_transmit` actually completed (its oracle did not run
dry), its payload appears in its call trace. -/
lemma wp_ble_transmit_mem (data : List Nat) (resps : List BleStatus)
    (h : (wp_ble_transmit data resps).1 ≠ TransmitOutcome.outOfResponses) :
    data ∈ (wp_ble_transmit data resps).2.2 := by
  induction resps with
  | nil => simp [wp_ble_transmit] at h
  | cons st rest ih =>
    by_cases hs : st = BleStatus.resources
    · subst hs
      simp only [wp_ble_transmit, if_pos rfl] at h ⊢
      exact List.mem_cons_self _ _
    · simp only [wp_ble_transmit, if_neg hs]
      split <;> simp

/-- Lemma: `abort_outcome` never reports full success. -/
lemma abort_outcome_ne_allSent (o : TransmitOutcome) :
    abort_outcome o ≠ SendOutcome.allSent := by
  cases o <;> simp [abort_outcome]

/-- If `send_segments` reports `allSent`, every segment of its input list
occurs in the transmission trace. -/
lemma send_segments_mem (segs : List (List Nat)) (resps : List BleStatus)
    (hall : (send_segments segs resps).1 = SendOutcome.allSent) :
    ∀ seg ∈ segs, seg ∈ (send_segments segs resps).2.2 := by
  induction segs generalizing resps with
  | nil => intro x hx; simp at hx
  | cons seg more ih =>
    intro x hx
    simp only [send_segments] at hall ⊢
    by_cases hs :
        (wp_ble_transmit seg resps).1 = TransmitOutcome.returned BleStatus.success
    · simp only [if_pos hs] at hall ⊢
      rcases List.mem_cons.mp hx with hx | hx
      · subst hx
        exact List.mem_append_left _
          (wp_ble_transmit_mem _ _ (by rw [hs]; intro hc; cases hc))
      · exact List.mem_append_right _ (ih _ hall x hx)
    · rw [if_neg hs] at hall
      exact absurd hall (abort_outcome_ne_allSent _)

lemma range_map_getD (f : Nat → Nat) (n i : Nat) (h : i < n) :
    ((List.range n).map f).getD i 0 = f i := by
  simp [List.getD_eq_getElem?_getD, List.getElem?_map, List.getElem?_range h]

/-! ## Claim C1 -/

/-- Example state with two undrained frames pending (head 2, tail 1). -/
def C1exS : FwState := { initState with rx_buffer_head := 2, rx_buffer_tail := 1 }

/-- C1 counterexample: a link-disconnect event (`ble_conn_handler` with
`connected = false`) does NOT reset the ring indices — starting from
head 2 / tail 1 both indices keep their old nonzero values, refuting the
claimed `head == 0 and tail == 0` after every disconnect. -/
theorem C1_counterexample :
    (ble_conn_handler [9, 9, 9] false C1exS).rx_buffer_head ≠ 0 ∧
    (ble_conn_handler [9, 9, 9] false C1exS).rx_buffer_tail ≠ 0 := by
  decide

/-- C1 amended: on every link-disconnect event the firmware stops the
transfer sequencer (both timers disabled, reception disarmed, so no
completion fires and no frame is enqueued for an in-flight capture) and
sends the fixed restart control packet to the companion device exactly
once; but the ring indices are left unchanged, not reset to 0. -/
theorem C1_amended (restart_packet : List Nat) (s : FwState) :
    (ble_conn_handler restart_packet false s).tim_enabled = false ∧
    (ble_conn_handler restart_packet false s).spi_rx_armed = false ∧
    (ble_conn_handler restart_packet false s).spi_sent
      = s.spi_sent ++ [wp_spi_wire_bytes restart_packet restart_packet.length] ∧
    (ble_conn_handler restart_packet false s).rx_buffer_head = s.rx_buffer_head ∧
    (ble_conn_handler restart_packet false s).rx_buffer_tail = s.rx_buffer_tail := by
  refine ⟨rfl, rfl, ?_, rfl, rfl⟩
  show (wp_spi_send_config _ _ _).spi_sent = _
  rw [wp_spi_send_config_sent]
  rfl

/-! ## Claim C3 -/

/-- C3: on every sequence-completion event the producer advances
`rx_buffer_head` to `(rx_buffer_head + 1) mod C` unconditionally, the
overflow warning count grows by one exactly when the new head equals
`rx_buffer_tail` (and stays put otherwise), and `rx_buffer_tail` is left
unchanged. -/
theorem C3_head_advance_unconditional (s : FwState) :
    (ppi_end_handler WULPUS_NUM_BUFFERED_FRAMES s).rx_buffer_head
        = (s.rx_buffer_head + 1) % WULPUS_NUM_BUFFERED_FRAMES ∧
    (ppi_end_handler WULPUS_NUM_BUFFERED_FRAMES s).rx_buffer_tail = s.rx_buffer_tail ∧
    ((ppi_end_handler WULPUS_NUM_BUFFERED_FRAMES s).overflow_warnings
        = s.overflow_warnings + 1 ↔
      (ppi_end_handler WULPUS_NUM_BUFFERED_FRAMES s).rx_buffer_head
        = s.rx_buffer_tail) ∧
    ((ppi_end_handler WULPUS_NUM_BUFFERED_FRAMES s).rx_buffer_head
        ≠ s.rx_buffer_tail →
      (ppi_end_handler WULPUS_NUM_BUFFERED_FRAMES s).overflow_warnings
        = s.overflow_warnings) := by
  by_cases h :
      (s.rx_buffer_head + 1) % WULPUS_NUM_BUFFERED_FRAMES = s.rx_buffer_tail
  · simp [ppi_end_handler, h]
  · simp [ppi_end_handler, h]

/-- Example state for the C3 witness: head 3, tail 0. -/
def C3exS : FwState := { initState with rx_buffer_head := 3 }

/-- C3 witness: concrete completion at head 3 / tail 0 — the new head 4
differs from the tail, and the warning count is untouched. -/
theorem C3_witness :
    (ppi_end_handler WULPUS_NUM_BUFFERED_FRAMES C3exS).rx_buffer_head
        ≠ C3exS.rx_buffer_tail ∧
    (ppi_end_handler WULPUS_NUM_BUFFERED_FRAMES C3exS).overflow_warnings
        = C3exS.overflow_warnings :=
  ⟨by decide, (C3_head_advance_unconditional C3exS).2.2.2 (by decide)⟩

/-! ## Claim C5 -/

/-- C5: every inbound reconfiguration command stops the sequencer, forwards
the command payload to the companion device exactly once (one new SPI
packet, the 201-byte serialization of the payload), and resets both ring
indices to 0, discarding all undrained frames — in particular any state
with tail 0 / head 2 ends with both indices 0. -/
theorem C5_reconfigure_resets (data : List Nat) (length : Nat) (s : FwState) :
    (ble_data_handler data length s).rx_buffer_head = 0 ∧
    (ble_data_handler data length s).rx_buffer_tail = 0 ∧
    (ble_data_handler data length s).tim_enabled = false ∧
    (ble_data_handler data length s).spi_rx_armed = false ∧
    (ble_data_handler data length s).spi_sent
      = s.spi_sent ++ [wp_spi_wire_bytes data length] := by
  refine ⟨rfl, rfl, rfl, rfl, ?_⟩
  show (wp_spi_send_config _ _ _).spi_sent = _
  rw [wp_spi_send_config_sent]
  rfl

/-! ## Claim C8 -/

/-- Mid-capture example state: sequencer running with the transfer counter
at 2, head at slot 5. -/
def C8exS : FwState :=
  { initState with
    tim_enabled := true, tim_counter_val := 2, rx_buffer_head := 5,
    spi_rx_armed := true }

/-- C8 counterexample: a data-ready edge arriving while a capture is in
progress is NOT a no-op — `gpio_data_ready_handler` clears the transfer
counter (2 becomes 0), restarting the sequence instead of ignoring the
redundant trigger. -/
theorem C8_counterexample :
    (gpio_data_ready_handler GpioteAction.toggle 1 C8exS).tim_counter_val
      ≠ C8exS.tim_counter_val := by
  decide

/-- C8 amended: a data-ready edge (TOGGLE, polarity 1) unconditionally
re-arms and restarts the capture — it sets the SPI destination to slot
`rx_buffer_head`, arms reception, clears both sequencer timers and enables
them, whether or not a capture is already in progress; ring indices and
all other state are untouched. -/
theorem C8_amended (s : FwState) :
    gpio_data_ready_handler GpioteAction.toggle 1 s
      = { s with
          spi_rxd_ptr := s.rx_buffer_head * FRAME_SIZE
          spi_rx_armed := true
          tim_timeout_val := 0
          tim_counter_val := 0
          tim_enabled := true } :=
  rfl

/-! ## Claim C10 -/

/-- C10: for any packet of at most `WULPUS_BYTES_PER_XFER` = 201 bytes,
`wp_spi_send_config` puts exactly 201 bytes on the SPI wire, whose first
`packet.length` bytes are the packet and whose remaining bytes are zero —
independently of the previous transmit-buffer contents (the state `s` is
arbitrary and the wire bytes do not mention it). -/
theorem C10_send_config_exact (buffer : List Nat) (s : FwState)
    (h : buffer.length ≤ WULPUS_BYTES_PER_XFER) :
    (wp_spi_send_config buffer buffer.length s).spi_sent
        = s.spi_sent ++ [wp_spi_wire_bytes buffer buffer.length] ∧
    (wp_spi_wire_bytes buffer buffer.length).length = WULPUS_BYTES_PER_XFER ∧
    (∀ i, i < buffer.length →
      (wp_spi_wire_bytes buffer buffer.length).getD i 0 = buffer.getD i 0) ∧
    (∀ i, buffer.length ≤ i → i < WULPUS_BYTES_PER_XFER →
      (wp_spi_wire_bytes buffer buffer.length).getD i 0 = 0) := by
  have h256 : buffer.length % 256 = buffer.length :=
    Nat.mod_eq_of_lt (lt_of_le_of_lt h (by norm_num [WULPUS_BYTES_PER_XFER]))
  refine ⟨wp_spi_send_config_sent _ _ _, by simp [wp_spi_wire_bytes, wp_spi_tx_length],
    ?_, ?_⟩
  · intro i hi
    simp only [wp_spi_wire_bytes, wp_spi_tx_length]
    rw [range_map_getD _ _ _ (lt_of_lt_of_le hi h), h256, if_pos hi]
  · intro i hi hi201
    simp only [wp_spi_wire_bytes, wp_spi_tx_length]
    rw [range_map_getD _ _ _ hi201, h256, if_neg (by omega)]

/-- C10 witness: the concrete 3-byte packet 5,6,7 — its length is within
bounds, byte 1 of the wire is the packet's byte 1, and byte 100 of the wire
is zero padding. -/
theorem C10_witness :
    [5, 6, 7].length ≤ WULPUS_BYTES_PER_XFER ∧
    (wp_spi_wire_bytes [5, 6, 7] [5, 6, 7].length).getD 1 0 = 6 ∧
    (wp_spi_wire_bytes [5, 6, 7] [5, 6, 7].length).getD 100 0 = 0 :=
  ⟨by decide,
    (C10_send_config_exact [5, 6, 7] initState (by decide)).2.2.1 1 (by decide),
    (C10_send_config_exact [5, 6, 7] initState (by decide)).2.2.2 100 (by decide)
      (by decide)⟩

/-! ## Claim C2 -/

/-- Segment serialization as the spec words it (for refinement comparison
with `frame_segments`): segment 0 is the marker byte — the FIRST byte of
the frame's ring slot — followed by `WULPUS_BYTES_PER_XFER` further bytes,
and segments 1..3 are exactly the slot's second, third and fourth
201-byte blocks. -/
def spec_frame_segments (buf : Nat → Nat) (t : Nat) : List (List Nat) :=
  [ bytesAt buf (t * FRAME_SIZE) (WULPUS_BYTES_PER_XFER + 1)
  , bytesAt buf (t * FRAME_SIZE + 1 * WULPUS_BYTES_PER_XFER) WULPUS_BYTES_PER_XFER
  , bytesAt buf (t * FRAME_SIZE + 2 * WULPUS_BYTES_PER_XFER) WULPUS_BYTES_PER_XFER
  , bytesAt buf (t * FRAME_SIZE + 3 * WULPUS_BYTES_PER_XFER) WULPUS_BYTES_PER_XFER ]

/-- Example slot contents making byte positions observable: byte `i` holds
`i % 256`. -/
def C2buf : Nat → Nat := fun i => i % 256

/-- C2 counterexample: the byte-lengths are the claimed 202, 201, 201, 201,
but the first byte of the first transmitted segment is the slot's SECOND
byte (value 1), not the slot's first byte (value 0) — `main.c` starts
segment 0 at offset `0 * WULPUS_BYTES_PER_XFER + 1` — so the code's
serialization differs from the spec's. -/
theorem C2_counterexample :
    (frame_segments C2buf 0).map List.length = [202, 201, 201, 201] ∧
    ((frame_segments C2buf 0).getD 0 []).getD 0 0 ≠ C2buf (0 * FRAME_SIZE) ∧
    frame_segments C2buf 0 ≠ spec_frame_segments C2buf 0 := by
  decide

/-- C2 amended: a drained frame is serialized as four segments of
byte-lengths 202, 201, 201, 201 in that order, where segment 0 consists of
the 202 slot bytes starting at offset 1 (the slot's first byte is never
transmitted), segments 1..3 are exactly the slot's second, third and
fourth 201-byte blocks, and consequently the last two bytes of segment 0
duplicate the first two bytes of segment 1. -/
theorem C2_amended (buf : Nat → Nat) (t : Nat) :
    (frame_segments buf t).map List.length = [202, 201, 201, 201] ∧
    (∀ i, i < WULPUS_BYTES_PER_XFER + 1 →
      ((frame_segments buf t).getD 0 []).getD i 0 = buf (t * FRAME_SIZE + 1 + i)) ∧
    (∀ k i, 1 ≤ k → k ≤ 3 → i < WULPUS_BYTES_PER_XFER →
      ((frame_segments buf t).getD k []).getD i 0
        = buf (t * FRAME_SIZE + k * WULPUS_BYTES_PER_XFER + i)) ∧
    ((frame_segments buf t).getD 0 []).getD 200 0
        = ((frame_segments buf t).getD 1 []).getD 0 0 ∧
    ((frame_segments buf t).getD 0 []).getD 201 0
        = ((frame_segments buf t).getD 1 []).getD 1 0 := by
  refine ⟨by simp [frame_segments, bytesAt_length]; rfl, ?_, ?_, ?_, ?_⟩
  · intro i hi
    show (bytesAt buf (t * FRAME_SIZE + 0 * WULPUS_BYTES_PER_XFER + 1)
        (WULPUS_BYTES_PER_XFER + 1)).getD i 0 = _
    rw [bytesAt_getD _ _ _ _ hi]
    norm_num
  · intro k i hk1 hk3 hi
    interval_cases k
    · show (bytesAt buf (t * FRAME_SIZE + 1 * WULPUS_BYTES_PER_XFER)
          WULPUS_BYTES_PER_XFER).getD i 0 = _
      rw [bytesAt_getD _ _ _ _ hi]
    · show (bytesAt buf (t * FRAME_SIZE + 2 * WULPUS_BYTES_PER_XFER)
          WULPUS_BYTES_PER_XFER).getD i 0 = _
      rw [bytesAt_getD _ _ _ _ hi]
    · show (bytesAt buf (t * FRAME_SIZE + 3 * WULPUS_BYTES_PER_XFER)
          WULPUS_BYTES_PER_XFER).getD i 0 = _
      rw [bytesAt_getD _ _ _ _ hi]
  · show (bytesAt buf (t * FRAME_SIZE + 0 * WULPUS_BYTES_PER_XFER + 1)
        (WULPUS_BYTES_PER_XFER + 1)).getD 200 0
      = (bytesAt buf (t * FRAME_SIZE + 1 * WULPUS_BYTES_PER_XFER)
          WULPUS_BYTES_PER_XFER).getD 0 0
    rw [bytesAt_getD _ _ _ _ (by norm_num [WULPUS_BYTES_PER_XFER]),
      bytesAt_getD _ _ _ _ (by norm_num [WULPUS_BYTES_PER_XFER])]
    norm_num [WULPUS_BYTES_PER_XFER]
  · show (bytesAt buf (t * FRAME_SIZE + 0 * WULPUS_BYTES_PER_XFER + 1)
        (WULPUS_BYTES_PER_XFER + 1)).getD 201 0
      = (bytesAt buf (t * FRAME_SIZE + 1 * WULPUS_BYTES_PER_XFER)
          WULPUS_BYTES_PER_XFER).getD 1 0
    rw [bytesAt_getD _ _ _ _ (by norm_num [WULPUS_BYTES_PER_XFER]),
      bytesAt_getD _ _ _ _ (by norm_num [WULPUS_BYTES_PER_XFER])]
    norm_num [WULPUS_BYTES_PER_XFER]

/-- C2 witness: the amended characterization applied to the concrete slot
`C2buf` at ring position 0 — byte 5 of segment 0 is slot byte 6, and byte 7
of segment 2 is slot byte 409. -/
theorem C2_amended_witness :
    ((frame_segments C2buf 0).getD 0 []).getD 5 0 = C2buf 6 ∧
    ((frame_segments C2buf 0).getD 2 []).getD 7 0 = C2buf 409 :=
  ⟨(C2_amended C2buf 0).2.1 5 (by decide),
    (C2_amended C2buf 0).2.2.1 2 7 (by decide) (by decide) (by decide)⟩

/-! ## Claim C7 -/

/-- Four distinguishable incoming frames: constant byte values 11, 22, 33,
44 for captures 1..4. -/
def C7frames : List (Nat → Nat) :=
  [fun _ => 11, fun _ => 22, fun _ => 33, fun _ => 44]

/-- State after 4 complete capture cycles at ring capacity 3 with no
draining, from the all-zero initial state. -/
def C7run : FwState := capture_run 3 C7frames initState

/-- C7 counterexample: with capacity 3 and 4 completions and no draining,
the final state has head 1 but tail 0 — `rx_buffer_tail` is owned by the
drain loop and never moves — so the claimed `head == tail == 1` is false;
moreover slot 1 still holds the 2nd capture's bytes (22), so the frame at
slot 1 was not overwritten by the 4th capture. -/
theorem C7_counterexample :
    ¬ (C7run.rx_buffer_head = 1 ∧ C7run.rx_buffer_tail = 1) ∧
    C7run.rx_buffer (1 * FRAME_SIZE) = 22 := by
  decide

/-- C7 amended: with ring capacity 3, producing 4 capture completions from
the empty initial state and never draining leaves head 1 and tail 0; the
overflow warning is recorded exactly once, namely at the 3rd completion
(count 0 after two cycles, 1 after three); and the 4th capture overwrites
slot 0 — the 1st capture's frame (its bytes become 44) — while slots 1 and
2 still hold the 2nd and 3rd captures. -/
theorem C7_amended :
    C7run.rx_buffer_head = 1 ∧
    C7run.rx_buffer_tail = 0 ∧
    C7run.overflow_warnings = 1 ∧
    (capture_run 3 (C7frames.take 2) initState).overflow_warnings = 0 ∧
    (capture_run 3 (C7frames.take 3) initState).overflow_warnings = 1 ∧
    C7run.rx_buffer 0 = 44 ∧
    C7run.rx_buffer (1 * FRAME_SIZE) = 22 ∧
    C7run.rx_buffer (2 * FRAME_SIZE) = 33 := by
  decide

/-! ## Claim C6 -/

/-- One-pending-frame state for the backpressure scenario: head 1,
tail 0, slot contents all zero. -/
def C6s : FwState := { initState with rx_buffer_head := 1 }

/-- Transport oracle for the backpressure scenario: segment 0 is answered
Busy three times and then Ok; segments 1..3 are answered Ok at once. -/
def C6resps : List BleStatus :=
  [.resources, .resources, .resources, .success, .success, .success, .success]

/-- C6: the retry loop sends the same bytes on every attempt — `k` Busy
answers followed by a status `st ≠ Busy` produce exactly `k + 1` calls all
carrying `data`, the loop stops at `st` (the rest of the oracle is
untouched) with outcome `transmit_result st`; and in the concrete
Busy-3-times-then-Ok scenario the drain makes exactly 4 calls for segment
0 (then one per remaining segment) and advances the tail, whereas with the
three Busy answers alone the tail does not move. -/
theorem C6_busy_retry (data : List Nat) (k : Nat) (st : BleStatus)
    (rest : List BleStatus) (h : st ≠ BleStatus.resources) :
    (wp_ble_transmit data (List.replicate k BleStatus.resources ++ st :: rest)).2.2
        = List.replicate (k + 1) data ∧
    (wp_ble_transmit data (List.replicate k BleStatus.resources ++ st :: rest)).1
        = transmit_result st ∧
    (wp_ble_transmit data (List.replicate k BleStatus.resources ++ st :: rest)).2.1
        = rest ∧
    (handle_pending_frames C6resps C6s).1.rx_buffer_tail = 1 ∧
    (handle_pending_frames C6resps C6s).2.2
        = List.replicate 4 (List.replicate 202 0)
            ++ [List.replicate 201 0, List.replicate 201 0, List.replicate 201 0] ∧
    (handle_pending_frames
        [BleStatus.resources, BleStatus.resources, BleStatus.resources]
        C6s).1.rx_buffer_tail = 0 := by
  refine ⟨?_, ?_, ?_, by decide, by decide, by decide⟩
  · rw [transmit_spec data k st rest h]
  · rw [transmit_spec data k st rest h]
  · rw [transmit_spec data k st rest h]

/-- C6 witness: the retry characterization at `data = [1, 2]`, three Busy
answers, then Ok: four identical calls and a successful return. -/
theorem C6_busy_retry_witness :
    BleStatus.success ≠ BleStatus.resources ∧
    (wp_ble_transmit [1, 2]
        (List.replicate 3 BleStatus.resources ++ [BleStatus.success])).2.2
      = List.replicate 4 [1, 2] :=
  ⟨by decide, (C6_busy_retry [1, 2] 3 BleStatus.success [] (by decide)).1⟩

/-! ## Claim C9 -/

/-- Lemma: `transmit_result` maps every status to a returned or error-checked
outcome, and `abort_outcome` turns both into an abort carrying the same
status. -/
lemma abort_outcome_transmit_result (st : BleStatus) :
    abort_outcome (transmit_result st) = SendOutcome.aborted st := by
  unfold transmit_result
  split <;> rfl

/-- A non-success status never yields the drain loop's continue outcome. -/
lemma transmit_result_ne_success (st : BleStatus) (h : st ≠ BleStatus.success) :
    transmit_result st ≠ TransmitOutcome.returned BleStatus.success := by
  unfold transmit_result
  split
  · intro hc
    injection hc with h2
    exact h h2
  · intro hc
    cases hc

/-- One-pending-frame state for the fatal-status scenario: head 2,
tail 0. -/
def C9exS : FwState := { initState with rx_buffer_head := 2 }

/-- C9 counterexample: a fatal transport status (an error code outside
Busy/success) aborts the drain, but it does NOT funnel into a reset that
zeroes the indices — from head 2 / tail 0 the head stays 2 after the
aborted drain, refuting the claimed `head = tail = 0`. -/
theorem C9_counterexample :
    (handle_pending_frames [BleStatus.other 5] C9exS).2.1
        = SendOutcome.aborted (BleStatus.other 5) ∧
    (handle_pending_frames [BleStatus.other 5] C9exS).1.rx_buffer_head ≠ 0 := by
  decide

/-- C9 amended: whenever the segment sends do not all succeed the drain
leaves the firmware state exactly as it was — tail is not advanced and, in
particular, head and tail are NOT reset to 0 (the fatal status escalates
through APP_ERROR_CHECK to the SDK fault handler instead of any session
reset path); and a first-segment send answered Busy `k` times and then a
fatal status `st` stops retrying at `st`: exactly `k + 1` calls are made,
all carrying segment 0, and the drain aborts with `st`. -/
theorem C9_fatal_aborts (s : FwState) (k : Nat) (st : BleStatus)
    (rest : List BleStatus)
    (hnotempty : s.rx_buffer_tail ≠ s.rx_buffer_head)
    (hbusy : st ≠ BleStatus.resources) (hsucc : st ≠ BleStatus.success) :
    (∀ resps,
      (send_segments (frame_segments s.rx_buffer s.rx_buffer_tail) resps).1
          ≠ SendOutcome.allSent →
        (handle_pending_frames resps s).1 = s) ∧
    handle_pending_frames (List.replicate k BleStatus.resources ++ st :: rest) s
      = (s, SendOutcome.aborted st,
          List.replicate (k + 1)
            (bytesAt s.rx_buffer
              (s.rx_buffer_tail * FRAME_SIZE + 0 * WULPUS_BYTES_PER_XFER + 1)
              (WULPUS_BYTES_PER_XFER + 1))) := by
  constructor
  · intro resps hno
    simp only [handle_pending_frames, if_pos hnotempty, if_neg hno]
  · have hsend :
        send_segments (frame_segments s.rx_buffer s.rx_buffer_tail)
          (List.replicate k BleStatus.resources ++ st :: rest)
        = (SendOutcome.aborted st, rest,
            List.replicate (k + 1)
              (bytesAt s.rx_buffer
                (s.rx_buffer_tail * FRAME_SIZE + 0 * WULPUS_BYTES_PER_XFER + 1)
                (WULPUS_BYTES_PER_XFER + 1))) := by
      show send_segments
          (bytesAt s.rx_buffer
              (s.rx_buffer_tail * FRAME_SIZE + 0 * WULPUS_BYTES_PER_XFER + 1)
              (WULPUS_BYTES_PER_XFER + 1) :: _)
          (List.replicate k BleStatus.resources ++ st :: rest) = _
      simp only [send_segments]
      rw [transmit_spec _ k st rest hbusy]
      simp only [if_neg (transmit_result_ne_success st hsucc),
        abort_outcome_transmit_result]
    simp only [handle_pending_frames, if_pos hnotempty, hsend]
    rw [if_neg (by intro hc; cases hc)]

/-- C9 witness: from head 2 / tail 0, one Busy answer then
`NRF_ERROR_INVALID_STATE` on segment 0 — two identical calls, an abort
carrying the fatal status, and the state (indices included) untouched. -/
theorem C9_fatal_aborts_witness :
    C9exS.rx_buffer_tail ≠ C9exS.rx_buffer_head ∧
    handle_pending_frames
        (List.replicate 1 BleStatus.resources ++ [BleStatus.invalidState]) C9exS
      = (C9exS, SendOutcome.aborted BleStatus.invalidState,
          List.replicate 2 (bytesAt C9exS.rx_buffer 1 202)) :=
  ⟨by decide,
    (C9_fatal_aborts C9exS 1 BleStatus.invalidState [] (by decide) (by decide)
      (by decide)).2⟩

/-! ## Claim C4 -/

/-- C4: in any step that is neither an inbound reconfiguration command nor
a disconnect, the tail either stays put or advances by exactly
`+1 mod WULPUS_NUM_BUFFERED_FRAMES`, and it advances only in a drain step
on a nonempty ring in which all four segments of the frame at slot `tail`
were sent (each of them occurs in the transmission trace); moreover a
drain iteration on an empty ring (`head == tail`) is a no-op that sends
nothing.  Each drain iteration handles at most one frame by the same
disjunction. -/
theorem C4_tail_discipline (rp : List Nat) (e : Event) (s : FwState)
    (hcmd : ∀ d l, e ≠ Event.bleData d l)
    (hdisc : e ≠ Event.bleConn false) :
    (s.rx_buffer_tail = s.rx_buffer_head → ∀ resps,
      handle_pending_frames resps s = (s, SendOutcome.allSent, [])) ∧
    ((step rp e s).rx_buffer_tail = s.rx_buffer_tail ∨
      ((step rp e s).rx_buffer_tail
          = (s.rx_buffer_tail + 1) % WULPUS_NUM_BUFFERED_FRAMES ∧
       s.rx_buffer_tail ≠ s.rx_buffer_head ∧
       ∃ resps, e = Event.drain resps ∧
         (send_segments (frame_segments s.rx_buffer s.rx_buffer_tail) resps).1
           = SendOutcome.allSent ∧
         ∀ seg ∈ frame_segments s.rx_buffer s.rx_buffer_tail,
           seg ∈ (send_segments (frame_segments s.rx_buffer s.rx_buffer_tail)
                    resps).2.2)) := by
  constructor
  · intro heq resps
    simp only [handle_pending_frames]
    rw [if_neg (fun hn => hn heq)]
  · cases e with
    | dataReady a p =>
      left
      cases a
      · rfl
      · rfl
      · by_cases hp : p = 1 <;>
          simp [step, gpio_data_ready_handler, hp, wp_ppi_start_transfer,
            wp_spi_init_reception, wp_spi_set_buffer]
    | seqComplete => left; rfl
    | drain resps =>
      by_cases hne : s.rx_buffer_tail ≠ s.rx_buffer_head
      · by_cases hall :
            (send_segments (frame_segments s.rx_buffer s.rx_buffer_tail) resps).1
              = SendOutcome.allSent
        · right
          refine ⟨?_, hne, resps, rfl, hall, send_segments_mem _ _ hall⟩
          simp only [step, handle_pending_frames, if_pos hne, if_pos hall]
        · left
          simp only [step, handle_pending_frames, if_pos hne, if_neg hall]
      · left
        simp only [step, handle_pending_frames, if_neg hne]
    | bleData d l => exact absurd rfl (hcmd d l)
    | bleConn c =>
      cases c with
      | false => exact absurd rfl hdisc
      | true => left; rfl

/-- Transport oracle for the C4 witness: every call answered Ok. -/
def C4wresps : List BleStatus := List.replicate 4 BleStatus.success

/-- C4 witness: a concrete drain step on the one-pending-frame state with
an all-Ok transport. -/
theorem C4_tail_discipline_witness :
    (step [] (Event.drain C4wresps) C6s).rx_buffer_tail = C6s.rx_buffer_tail ∨
    ((step [] (Event.drain C4wresps) C6s).rx_buffer_tail
        = (C6s.rx_buffer_tail + 1) % WULPUS_NUM_BUFFERED_FRAMES ∧
     C6s.rx_buffer_tail ≠ C6s.rx_buffer_head ∧
     ∃ resps, Event.drain C4wresps = Event.drain resps ∧
       (send_segments (frame_segments C6s.rx_buffer C6s.rx_buffer_tail) resps).1
         = SendOutcome.allSent ∧
       ∀ seg ∈ frame_segments C6s.rx_buffer C6s.rx_buffer_tail,
         seg ∈ (send_segments (frame_segments C6s.rx_buffer C6s.rx_buffer_tail)
                  resps).2.2) :=
  (C4_tail_discipline [] (Event.drain C4wresps) C6s
    (by intro d l hc; cases hc) (by intro hc; cases hc)).2

end Wulpus
